import Mathlib

/-!
Shallow embedding of the boot/shutdown orchestrator of the Gulden full node
(`src/init.cpp`), covering:

* the corruption-containing chain-state read façade (`CCoinsViewErrorCatcher::GetCoin`),
* the block-index load loop of `AppInitMain` with its single user-approved
  reindex retry,
* the cache-budget computation of `AppInitMain` (step 7),
* the low-memory parameter interaction of `AppInitParameterInteraction`,
* `CleanupBlockRevFiles` (reindex cleanup under pruning),
* `ThreadImport` (background import pipeline) and the `fDumpMempoolLater`
  handshake with `CoreShutdown`,
* the `TRY_LOCK`-guarded idempotence of `CoreShutdown`,
* the changed `-txindex` compatibility check inside the load attempt,
* the file-descriptor/connection-ceiling resolution of
  `AppInitParameterInteraction`.

Machine integers of the source are `int64_t`/`int` values whose magnitudes in
the modelled domains stay far below 2^63, so they are modelled as `Nat` (where
the source values are provably nonnegative) or `Int` (where sign matters),
with exact C++ truncating division matching `Nat` division on the nonnegative
values involved.
-/

/-! ### C1: the chain-state read façade, `CCoinsViewErrorCatcher::GetCoin` -/

/-- A genuine read I/O fault surfacing from the backing store as a
`std::runtime_error` (carrying the `what()` text). -/
structure ReadFault where
  msg : String
deriving DecidableEq, Repr

/-- Outcome of a lookup through the façade: either the wrapped call returns a
`bool` (`true` = coin found, `false` = entry not found) to its caller, or the
process is terminated via `abort()`. -/
inductive LookupOutcome
  | returned (found : Bool)
  | aborted
deriving DecidableEq, Repr

/-- `CCoinsViewErrorCatcher::GetCoin` (init.cpp:153-165): forwards to the
backed view; the backed view either returns a `bool` or raises a read fault
(`std::runtime_error`).  On a fault the façade logs and calls `abort()`; it
never converts the fault into a returned value. -/
def CCoinsViewErrorCatcherGetCoin (backed : Except ReadFault Bool) : LookupOutcome :=
  match backed with
  | .ok found => .returned found
  | .error _ => .aborted

/-! ### C2: the block-index load loop of `AppInitMain` (init.cpp:1646-1826) -/

/-- Outcome of one pass of the inner `do { ... } while(false)` load attempt as
seen by the outer `while (!fLoaded)` loop: the attempt either sets
`fLoaded = true`, or breaks out with a recoverable `strLoadError`, or returns
from `AppInitMain` directly (e.g. the genesis-mismatch `return InitError` or
the post-loop shutdown check). -/
inductive AttemptOutcome
  | loaded
  | failed
  | fatalDirect
deriving DecidableEq, Repr

/-- Result of running the outer load loop to completion, recording how many
load attempts were executed and how many times the user was prompted with the
rebuild question. -/
inductive LoadLoopResult
  | success (attempts prompts : Nat)
  | abortedByUser (attempts prompts : Nat)
  | fatalReindexFailure (attempts prompts : Nat)
  | fatalDirect (attempts prompts : Nat)
  | outOfFuel
deriving DecidableEq, Repr

/-- Number of load attempts recorded in a `LoadLoopResult`. -/
def LoadLoopResult.attemptCount : LoadLoopResult → Nat
  | .success a _ => a
  | .abortedByUser a _ => a
  | .fatalReindexFailure a _ => a
  | .fatalDirect a _ => a
  | .outOfFuel => 0

/-- Number of user prompts recorded in a `LoadLoopResult`. -/
def LoadLoopResult.promptCount : LoadLoopResult → Nat
  | .success _ p => p
  | .abortedByUser _ p => p
  | .fatalReindexFailure _ p => p
  | .fatalDirect _ p => p
  | .outOfFuel => 0

/-- The outer `while (!fLoaded)` loop of `AppInitMain` (init.cpp:1646-1826).
Each iteration latches `fReset := fReindex`, runs one load attempt (the
attempt oracle is indexed by the number of attempts already made and by the
current `fReindex` flag), and on a recoverable failure either returns
`InitError(strLoadError)` when `fReset` was already set, or asks the user the
`ThreadSafeQuestion` rebuild prompt: an accepted prompt sets `fReindex = true`
and loops, a declined prompt aborts.  The C++ loop has no fuel; the `fuel`
argument merely bounds the recursion, and the theorems show two units always
suffice. -/
def loadBlockIndexLoop (attempt : Nat → Bool → AttemptOutcome) (userAccepts : Bool) :
    Nat → Bool → Nat → Nat → LoadLoopResult
  | 0, _, _, _ => .outOfFuel
  | fuel + 1, fReindex, attempts, prompts =>
    let fReset := fReindex
    match attempt attempts fReindex with
    | .loaded => .success (attempts + 1) prompts
    | .fatalDirect => .fatalDirect (attempts + 1) prompts
    | .failed =>
      if fReset then .fatalReindexFailure (attempts + 1) prompts
      else if userAccepts then
        loadBlockIndexLoop attempt userAccepts fuel true (attempts + 1) (prompts + 1)
      else .abortedByUser (attempts + 1) (prompts + 1)

/-! ### C3: cache-size calculations of `AppInitMain` step 7 (init.cpp:1624-1639)

The constants `nMinDbCache`, `nMaxDbCache`, `nMaxBlockDBCache`,
`nMaxBlockDBAndTxIndexCache` and `nMaxCoinsDBCache` are declared in `txdb.h`,
which is not part of the sources in scope; they are kept as parameters. -/

/-- The cache-limit constants consumed by the cache-size calculation, all in
MiB as in `txdb.h`. -/
structure CacheParams where
  nMinDbCache : Nat
  nMaxDbCache : Nat
  nMaxBlockDBCache : Nat
  nMaxBlockDBAndTxIndexCache : Nat
  nMaxCoinsDBCache : Nat
deriving DecidableEq, Repr

/-- The four budgets produced by `AppInitMain` step 7, in bytes. -/
structure CacheBudget where
  nBlockTreeDBCache : Nat
  nCoinDBCache : Nat
  nCoinCacheUsage : Nat
  nMempoolSizeMax : Nat
deriving DecidableEq, Repr

/-- The clamped total cache (init.cpp:1625-1627): `-dbcache` MiB shifted to
bytes, clamped to `[nMinDbCache <<< 20, nMaxDbCache <<< 20]`. -/
def clampTotalCache (p : CacheParams) (dbcacheArg : Nat) : Nat :=
  min (max (dbcacheArg <<< 20) (p.nMinDbCache <<< 20)) (p.nMaxDbCache <<< 20)

/-- Cache-size calculations of `AppInitMain` (init.cpp:1624-1635): block-tree
cache is an eighth of the total capped by the block-index cap (which is larger
with `-txindex`), the coins-DB cache takes
`min(remainder/2, remainder/4 + (1 <<< 23))` capped by `nMaxCoinsDBCache`, the
rest becomes the in-memory coin cache, and the mempool budget is
`-maxmempool` (MiB-denominated argument) times 1000000, independent of the
cache total. -/
def computeCacheBudget (p : CacheParams) (fTxIndex : Bool)
    (dbcacheArg maxmempoolArg : Nat) : CacheBudget :=
  let nTotalCache := clampTotalCache p dbcacheArg
  let nBlockTreeDBCache :=
    min (nTotalCache / 8)
      ((if fTxIndex then p.nMaxBlockDBAndTxIndexCache else p.nMaxBlockDBCache) <<< 20)
  let nTotalCache2 := nTotalCache - nBlockTreeDBCache
  let nCoinDBCache :=
    min (min (nTotalCache2 / 2) (nTotalCache2 / 4 + (1 <<< 23))) (p.nMaxCoinsDBCache <<< 20)
  let nTotalCache3 := nTotalCache2 - nCoinDBCache
  { nBlockTreeDBCache := nBlockTreeDBCache
    nCoinDBCache := nCoinDBCache
    nCoinCacheUsage := nTotalCache3
    nMempoolSizeMax := maxmempoolArg * 1000000 }

/-! ### C4: low-memory parameter interaction of `AppInitParameterInteraction`
(init.cpp:1023-1050) -/

/-- The slice of the argument store touched by the low-memory interaction.
`none` models an argument the user did not set explicitly; `some v` an
explicit setting. -/
structure LowMemUserArgs where
  maxconnections : Option Int
  maxmempool : Option Int
  dbcache : Option Int
  rpcthreads : Option Int
  reverseheaders : Option Bool
deriving DecidableEq, Repr

/-- The five `InitWarning` diagnostics the low-memory interaction can emit. -/
inductive LowMemWarning
  | reduceMaxConnections
  | reduceMaxMempool
  | reduceDbCache
  | reduceRpcThreads
  | disableReverseHeaders
deriving DecidableEq, Repr

/-- `SoftSetArg`: sets the argument to `v` only when the user did not set it;
returns the updated slot and whether a change was made. -/
def SoftSetArg (cur : Option Int) (v : Int) : Option Int × Bool :=
  match cur with
  | some w => (some w, false)
  | none => (some v, true)

/-- `SoftSetBoolArg`: boolean variant of `SoftSetArg`. -/
def SoftSetBoolArg (cur : Option Bool) (v : Bool) : Option Bool × Bool :=
  match cur with
  | some w => (some w, false)
  | none => (some v, true)

/-- Modelled from the spec: the constant `DEFAULT_MAX_MEMPOOL_SIZE_LOWMEM` is
declared outside the sources in scope; the spec calls it the reduced
low-memory mempool constant and the code's own warning text names the value
100, so it stays a parameter of the model (`lowmemMempoolDefault` below). -/
def lowmemMempoolNamedInWarningText : Int := 100

/-- The low-memory block of `AppInitParameterInteraction`
(init.cpp:1023-1050): when `systemPhysicalMemoryInBytes() <= 1*1024*1024*1024`
it soft-sets `-maxconnections` to 40, `-maxmempool` to
`DEFAULT_MAX_MEMPOOL_SIZE_LOWMEM`, `-dbcache` to 200, `-rpcthreads` to 1 and
`-reverseheaders` to `false`, emitting one `InitWarning` per slot actually
changed; otherwise it does nothing. -/
def AppInitLowMemoryInteraction (lowmemMempoolDefault : Int) (physMemBytes : Nat)
    (a : LowMemUserArgs) : LowMemUserArgs × List LowMemWarning :=
  if physMemBytes ≤ 1 * 1024 * 1024 * 1024 then
    let mc := SoftSetArg a.maxconnections 40
    let mm := SoftSetArg a.maxmempool lowmemMempoolDefault
    let dc := SoftSetArg a.dbcache 200
    let rt := SoftSetArg a.rpcthreads 1
    let rh := SoftSetBoolArg a.reverseheaders false
    ({ maxconnections := mc.1
       maxmempool := mm.1
       dbcache := dc.1
       rpcthreads := rt.1
       reverseheaders := rh.1 },
      (if mc.2 then [LowMemWarning.reduceMaxConnections] else []) ++
      (if mm.2 then [LowMemWarning.reduceMaxMempool] else []) ++
      (if dc.2 then [LowMemWarning.reduceDbCache] else []) ++
      (if rt.2 then [LowMemWarning.reduceRpcThreads] else []) ++
      (if rh.2 then [LowMemWarning.disableReverseHeaders] else []))
  else (a, [])

/-! ### C5: `CleanupBlockRevFiles` (init.cpp:688-721) -/

/-- The `blocks` directory, reduced to the indices of the `blk?????.dat` and
`rev?????.dat` files it holds.  Filenames are distinct in a directory, so a
well-formed directory has `Nodup` index lists; indices are below 100000 (five
digits), which makes the lexicographic order of the zero-padded
`substr(3,5)` map keys used by the source coincide with the numeric order
modelled here. -/
structure BlocksDirectory where
  blkFiles : List Nat
  revFiles : List Nat
deriving DecidableEq, Repr

/-- The second loop of `CleanupBlockRevFiles` (init.cpp:713-720): walk the
ordered block-file indices keeping a contiguity counter; a file whose index
matches the counter is kept and the counter advances, every other file is
removed. -/
def cleanupContigWalk : Nat → List Nat → List Nat
  | _, [] => []
  | nContigCounter, k :: ks =>
    if k = nContigCounter then k :: cleanupContigWalk (nContigCounter + 1) ks
    else cleanupContigWalk nContigCounter ks

/-- `CleanupBlockRevFiles` (init.cpp:688-721): removes every `rev?????.dat`
file while collecting the `blk?????.dat` indices into an ordered map, then
keeps only the block files forming the contiguous run starting at index 0. -/
def CleanupBlockRevFiles (d : BlocksDirectory) : BlocksDirectory :=
  { blkFiles := cleanupContigWalk 0 (List.insertionSort (· ≤ ·) d.blkFiles)
    revFiles := [] }

/-! ### C6 and C10: `ThreadImport` (init.cpp:723-802) and the
`fDumpMempoolLater` handshake consumed by `CoreShutdown` (init.cpp:237-239) -/

/-- Observable actions of the background import worker, in the order it
performs them. -/
inductive ImportEvent
  | reindexBlockFile (n : Nat)
  | writeReindexingDone
  | initBlockIndexAfterReindex
  | importBootstrapFile
  | renameBootstrapOld
  | importExplicitFile (name : String)
  | activateBestChainEvent
  | requestShutdown
  | loadMempoolAtEnd
deriving DecidableEq, Repr

/-- Environment of one `ThreadImport` run.  `blockFileExists n` models
`blockStore.BlockFileExists` for `blk{n}.dat`, `blockFileOpens n` models a
non-null `blockStore.GetBlockFile` handle; `vImportFiles` pairs each
`-loadblock` path (in user order) with whether `fopen` succeeds on it;
`shutdownRequestedAtEnd` is the value `ShutdownRequested()` returns when
sampled right after `LoadMempool()`. -/
structure ImportEnv where
  fReindex : Bool
  blockFileExists : Nat → Bool
  blockFileOpens : Nat → Bool
  bootstrapExists : Bool
  bootstrapOpens : Bool
  vImportFiles : List (String × Bool)
  activateBestChainOk : Bool
  stopAfterBlockImport : Bool
  persistMempool : Bool
  shutdownRequestedAtEnd : Bool

/-- The `-reindex` scan loop of `ThreadImport` (init.cpp:732-751): feed
`blk00000.dat`, `blk00001.dat`, ... to `LoadExternalBlockFile` until the first
index whose block file is missing (or cannot be opened).  The C++ loop is
unbounded; `fuel` bounds the recursion and the theorems require it to exceed
the first missing index. -/
def reindexScanEvents (fileExists fileOpens : Nat → Bool) :
    Nat → Nat → List ImportEvent
  | 0, _ => []
  | fuel + 1, nFile =>
    if fileExists nFile then
      if fileOpens nFile then
        .reindexBlockFile nFile :: reindexScanEvents fileExists fileOpens fuel (nFile + 1)
      else []
    else []

/-- `ThreadImport` (init.cpp:723-802): reindex scan (followed by
`WriteReindexing(false)` and `InitBlockIndex`), then `bootstrap.dat` if
present (renamed to `bootstrap.dat.old` after a successful open and load; an
unopenable bootstrap only logs a warning), then the `-loadblock` files in
user order (unopenable files only log a warning), then `ActivateBestChain` —
whose failure requests an orchestrator shutdown instead of returning an error
— then the optional `-stopafterblockimport` shutdown request, and finally,
under `-persistmempool`, `LoadMempool()` followed by
`fDumpMempoolLater = !ShutdownRequested()`.  Returns the event trace and the
final value of `fDumpMempoolLater` (initially `false`, init.cpp:140). -/
def ThreadImport (env : ImportEnv) (fuel : Nat) : List ImportEvent × Bool :=
  let reindexEvents :=
    if env.fReindex then
      reindexScanEvents env.blockFileExists env.blockFileOpens fuel 0 ++
        [.writeReindexingDone, .initBlockIndexAfterReindex]
    else []
  let bootstrapEvents :=
    if env.bootstrapExists then
      if env.bootstrapOpens then [ImportEvent.importBootstrapFile, .renameBootstrapOld]
      else []
    else []
  let fileEvents :=
    env.vImportFiles.filterMap fun pb =>
      if pb.2 then some (ImportEvent.importExplicitFile pb.1) else none
  let activateEvents :=
    ImportEvent.activateBestChainEvent ::
      (if env.activateBestChainOk then [] else [ImportEvent.requestShutdown])
  let stopEvents :=
    if env.stopAfterBlockImport then [ImportEvent.requestShutdown] else []
  let mempoolEvents :=
    if env.persistMempool then [ImportEvent.loadMempoolAtEnd] else []
  let fDumpMempoolLater := env.persistMempool && !env.shutdownRequestedAtEnd
  (reindexEvents ++ bootstrapEvents ++ fileEvents ++ activateEvents ++
    stopEvents ++ mempoolEvents, fDumpMempoolLater)

/-- The value of the `fDumpMempoolLater` atomic at the time `CoreShutdown`
reads it: `false` (its initializer, init.cpp:140) when the import worker never
reached its end-of-run mempool-load step, and otherwise whatever `ThreadImport`
left in it. -/
def fDumpMempoolLaterAtShutdown (env : ImportEnv) (importReachedMempoolStep : Bool)
    (fuel : Nat) : Bool :=
  if importReachedMempoolStep then (ThreadImport env fuel).2 else false

/-- The mempool-persistence gate of `CoreShutdown` (init.cpp:237-239):
`DumpMempool()` runs exactly when `fDumpMempoolLater` is set and
`-persistmempool` is enabled. -/
def CoreShutdownDumpsMempool (persistMempool fDumpMempoolLater : Bool) : Bool :=
  fDumpMempoolLater && persistMempool

/-! ### C7: idempotence of `CoreShutdown` (init.cpp:189-346) -/

/-- The teardown steps of `CoreShutdown`, in source order. -/
inductive TeardownStep
  | stopNetworkThreads
  | stopWorkerThreads
  | joinThreadGroups
  | softFlushWallets
  | deleteNetworkThreads
  | dumpMempoolIfRequested
  | writeFeeEstimates
  | closeCoinDatabases
  | finalFlushWallets
  | removePidAndUnregister
  | deleteWallets
  | stopCrypto
  | applyEraseDirectives
deriving DecidableEq, Repr

/-- The full teardown sequence executed by the body of `CoreShutdown` after a
successful `TRY_LOCK(cs_Shutdown)`. -/
def teardownSequence : List TeardownStep :=
  [.stopNetworkThreads, .stopWorkerThreads, .joinThreadGroups, .softFlushWallets,
   .deleteNetworkThreads, .dumpMempoolIfRequested, .writeFeeEstimates,
   .closeCoinDatabases, .finalFlushWallets, .removePidAndUnregister,
   .deleteWallets, .stopCrypto, .applyEraseDirectives]

/-- Interleaving events of concurrent `CoreShutdown` invocations, identified
by caller id: `tryEnter i` is call `i` executing `TRY_LOCK(cs_Shutdown)` (an
atomic acquire-or-fail), `finish i` is call `i` completing the teardown body
and releasing the lock.  A call whose `TRY_LOCK` fails returns immediately and
never emits `finish`; a `finish` by a non-holder is a no-op. -/
inductive ShutdownEvent
  | tryEnter (id : Nat)
  | finish (id : Nat)
deriving DecidableEq, Repr

/-- Shared state of the concurrent-shutdown model: the current lock holder,
the concatenated list of teardown steps executed so far, and the ids of calls
that returned immediately because the lock was already held. -/
structure ShutdownTraceState where
  holder : Option Nat
  executed : List TeardownStep
  immediateReturns : List Nat
deriving DecidableEq, Repr

/-- One interleaving step of the `CoreShutdown` lock discipline
(init.cpp:192-196): `TRY_LOCK` succeeds only when the lock is free — a failed
`TRY_LOCK` makes the call return at once with no teardown step executed — and
the holder appends the whole teardown sequence before releasing. -/
def CoreShutdownStep (s : ShutdownTraceState) : ShutdownEvent → ShutdownTraceState
  | .tryEnter i =>
    match s.holder with
    | none => { s with holder := some i }
    | some _ => { s with immediateReturns := s.immediateReturns ++ [i] }
  | .finish i =>
    if s.holder = some i then
      { s with holder := none, executed := s.executed ++ teardownSequence }
    else s

/-- Run a whole interleaving of concurrent `CoreShutdown` calls from the
initial state (lock free, nothing executed). -/
def CoreShutdownRun (events : List ShutdownEvent) : ShutdownTraceState :=
  events.foldl CoreShutdownStep ⟨none, [], []⟩

/-! ### C8: the load-attempt pipeline of `AppInitMain`
(init.cpp:1654-1807), in particular the changed `-txindex` check
(init.cpp:1756-1760) -/

/-- The recoverable `strLoadError` values a load attempt can break out with,
one per `break` site of the inner `do { ... } while(false)` block. -/
inductive LoadAttemptError
  | upgradeChainstateError
  | loadBlockDatabaseError
  | initBlockDatabaseError
  | txIndexChangedError
  | pruneModeChangedError
  | rewindError
  | blockFromFutureError
  | corruptedDatabaseError
deriving DecidableEq, Repr

/-- Result of one full load attempt: `fLoaded = true`, a recoverable
`strLoadError` break, or the direct `return InitError` taken on a genesis
mismatch (init.cpp:1747-1748). -/
inductive LoadAttemptResult
  | loaded
  | failed (e : LoadAttemptError)
  | fatalGenesisMismatch
deriving DecidableEq, Repr

/-- Oracles feeding one load attempt: results of the external calls the
attempt makes and the flags it consults.  `fTxIndexStored` is the global
`fTxIndex` as populated from the block database by `LoadBlockIndex`;
`txIndexArg` is `GetBoolArg("-txindex", DEFAULT_TXINDEX)`. -/
structure LoadAttemptEnv where
  upgradeOk : Bool
  nPreviousVersion : Int
  resyncForUpgradeArg : Bool
  loadBlockIndexOk : Bool
  upgradeBlockIndexOk : Bool
  genesisOk : Bool
  initBlockIndexOk : Bool
  fTxIndexStored : Bool
  txIndexArg : Bool
  fHavePruned : Bool
  fPruneMode : Bool
  hasChainTip : Bool
  rewindOk : Bool
  tipInFuture : Bool
  verifyDbOk : Bool
deriving DecidableEq, Repr

/-- Outcome of one pass through the body labelled `loadblockindex`: either a
final result, or a `goto loadblockindex` with the (possibly updated)
`fReindex` flag; every `goto` site first clears `upgradeOnceOnly`. -/
inductive LoadPassOutcome
  | done (r : LoadAttemptResult)
  | restart (fReindex : Bool)
deriving DecidableEq, Repr

/-- One pass of the load-attempt body (init.cpp:1658-1799), from the
`loadblockindex` label to either a terminal outcome or a `goto loadblockindex`.
In source order: the chainstate `Upgrade()` (skipped under `fReindex`), the
pre-`LoadBlockIndex` 2.0-upgrade block (init.cpp:1694-1706, restarting with
`fReindex = true` when `-resyncforblockindexupgrade` is set), `LoadBlockIndex`,
the post-load 2.0-upgrade block (init.cpp:1713-1743, restarting with
`fReindex = true` on an upgrade failure or forced resync and restarting with
`fReindex` unchanged after a successful in-place upgrade), the genesis check,
`InitBlockIndex`, the `-txindex` compatibility check, the pruned-to-unpruned
check, `RewindBlockIndex`, the future-dated-tip check and `VerifyDB`. -/
def loadBlockIndexAttemptPass (env : LoadAttemptEnv) (upgradeOnceOnly fReindex : Bool) :
    LoadPassOutcome :=
  if !fReindex && !env.upgradeOk then .done (.failed .upgradeChainstateError)
  else if upgradeOnceOnly && decide (env.nPreviousVersion < 1) && env.resyncForUpgradeArg then
    .restart true
  else if !env.loadBlockIndexOk then .done (.failed .loadBlockDatabaseError)
  else if upgradeOnceOnly && decide (env.nPreviousVersion < 1) then
    .restart (if env.resyncForUpgradeArg then true
              else if !env.upgradeBlockIndexOk then true
              else fReindex)
  else if !env.genesisOk then .done .fatalGenesisMismatch
  else if !env.initBlockIndexOk then .done (.failed .initBlockDatabaseError)
  else if env.fTxIndexStored != env.txIndexArg then .done (.failed .txIndexChangedError)
  else if env.fHavePruned && !env.fPruneMode then .done (.failed .pruneModeChangedError)
  else if !fReindex && env.hasChainTip && !env.rewindOk then .done (.failed .rewindError)
  else if env.tipInFuture then .done (.failed .blockFromFutureError)
  else if !env.verifyDbOk then .done (.failed .corruptedDatabaseError)
  else .done .loaded

/-- One full load attempt: run the body with `upgradeOnceOnly = true`; each
`goto loadblockindex` re-runs it with `upgradeOnceOnly = false`, after which
no further `goto` is possible (`loadBlockIndexAttemptPass_false_no_restart`
below), so the second `restart` branch here is dead. -/
def loadBlockIndexAttempt (env : LoadAttemptEnv) (fReindex : Bool) : LoadAttemptResult :=
  match loadBlockIndexAttemptPass env true fReindex with
  | .done r => r
  | .restart fR =>
    match loadBlockIndexAttemptPass env false fR with
    | .done r => r
    | .restart _ => .failed .loadBlockDatabaseError

/-! ### C9: file-descriptor and connection-ceiling resolution of
`AppInitParameterInteraction` (init.cpp:1016-1072)

`MIN_CORE_FILEDESCRIPTORS` is 150 on non-Windows builds (init.cpp:106);
`MAX_ADDNODE_CONNECTIONS` is declared in `net.h`, outside the sources in
scope, and stays a parameter. -/

/-- `MIN_CORE_FILEDESCRIPTORS` (init.cpp:106, non-Windows). -/
def MIN_CORE_FILEDESCRIPTORS : Int := 150

/-- Result of the descriptor-budget part of `AppInitParameterInteraction`:
either the `InitError("Not enough file descriptors available.")` return, or
the resolved `nMaxConnections` together with the raised descriptor count
`nFD`. -/
inductive FdResolveResult
  | resourceExhausted
  | resolved (nMaxConnections nFD : Int)
deriving DecidableEq, Repr

/-- The descriptor arithmetic of `AppInitParameterInteraction`
(init.cpp:1016-1072), with the low-memory soft-set block abstracted away (it
does not touch `nMaxConnections`, which was read at init.cpp:1020 before it
runs): `nBind = max(#bind + #whitebind, 1)`;
`nMaxConnections = max(nUserMaxConnections, 0)` clamped to
`nSystemMaxConnections − nBind − MIN_CORE_FILEDESCRIPTORS −
MAX_ADDNODE_CONNECTIONS` and floored at 0; `raisedFD` models the value
returned by `RaiseFileDescriptorLimit`; if it is below
`MIN_CORE_FILEDESCRIPTORS` the call fails, otherwise `nMaxConnections` is
further clamped to `raisedFD − MIN_CORE_FILEDESCRIPTORS −
MAX_ADDNODE_CONNECTIONS`. -/
def resolveConnectionLimits (maxAddnodeConnections nUserMaxConnections : Int)
    (nBindCount : Nat) (nSystemMaxConnections raisedFD : Int) : FdResolveResult :=
  let nBind : Int := max (nBindCount : Int) 1
  let nMaxConnections0 := max nUserMaxConnections 0
  let nMaxConnections1 :=
    max (min nMaxConnections0
          (nSystemMaxConnections - nBind - MIN_CORE_FILEDESCRIPTORS - maxAddnodeConnections)) 0
  if raisedFD < MIN_CORE_FILEDESCRIPTORS then .resourceExhausted
  else
    .resolved
      (min (raisedFD - MIN_CORE_FILEDESCRIPTORS - maxAddnodeConnections) nMaxConnections1)
      raisedFD

/-! ## Theorems -/

/-- C1: a lookup through the chain-state error-catching façade terminates the
process (`abort()`) on a genuine read fault and in particular never returns
the not-found answer `false` for it, while a non-faulting lookup returns the
backed store's answer unchanged. -/
theorem C1_errorCatcher_getCoin_contains_read_faults :
    (∀ f : ReadFault, CCoinsViewErrorCatcherGetCoin (.error f) = .aborted) ∧
    (∀ f : ReadFault,
      CCoinsViewErrorCatcherGetCoin (.error f) ≠ LookupOutcome.returned false) ∧
    (∀ found : Bool, CCoinsViewErrorCatcherGetCoin (.ok found) = .returned found) := by
  refine ⟨fun _ => rfl, fun f h => ?_, fun _ => rfl⟩
  simp [CCoinsViewErrorCatcherGetCoin] at h

/-- Witness for C1 at a concrete fault and a concrete clean lookup. -/
theorem C1_errorCatcher_getCoin_contains_read_faults_witness :
    CCoinsViewErrorCatcherGetCoin (.error ⟨"leveldb read fault"⟩) = .aborted ∧
    CCoinsViewErrorCatcherGetCoin (.ok false) = .returned false :=
  ⟨C1_errorCatcher_getCoin_contains_read_faults.1 ⟨"leveldb read fault"⟩,
   C1_errorCatcher_getCoin_contains_read_faults.2.2 false⟩

/-- C2: for any attempt oracle and any fuel of at least two units, the load
loop terminates within the fuel (so the unbounded C++ loop runs at most two
load attempts), prompts the user at most once, prompts exactly once when a
non-reindex first attempt fails recoverably (a declined prompt aborting with
one attempt made, an accepted prompt followed by a failing reindex attempt
being fatal after exactly two attempts with no further retry), and is
immediately fatal with no prompt when an already-reindexing attempt fails. -/
theorem C2_loadLoop_at_most_two_attempts (attempt : Nat → Bool → AttemptOutcome)
    (userAccepts : Bool) (fReindex0 : Bool) (fuel : Nat) (hfuel : 2 ≤ fuel) :
    loadBlockIndexLoop attempt userAccepts fuel fReindex0 0 0 ≠ .outOfFuel ∧
    (loadBlockIndexLoop attempt userAccepts fuel fReindex0 0 0).attemptCount ≤ 2 ∧
    (loadBlockIndexLoop attempt userAccepts fuel fReindex0 0 0).promptCount ≤ 1 ∧
    (fReindex0 = false → attempt 0 false = .failed →
      (loadBlockIndexLoop attempt userAccepts fuel fReindex0 0 0).promptCount = 1 ∧
      (userAccepts = false →
        loadBlockIndexLoop attempt userAccepts fuel fReindex0 0 0 = .abortedByUser 1 1) ∧
      (userAccepts = true → attempt 1 true = .failed →
        loadBlockIndexLoop attempt userAccepts fuel fReindex0 0 0 =
          .fatalReindexFailure 2 1)) ∧
    (fReindex0 = true → attempt 0 true = .failed →
      loadBlockIndexLoop attempt userAccepts fuel fReindex0 0 0 =
        .fatalReindexFailure 1 0) ∧
    (attempt 0 fReindex0 ≠ .failed →
      (loadBlockIndexLoop attempt userAccepts fuel fReindex0 0 0).promptCount = 0) := by
  obtain ⟨n, rfl⟩ : ∃ n, fuel = n + 2 := ⟨fuel - 2, by omega⟩
  cases hr0 : fReindex0 <;>
    cases h0 : attempt 0 fReindex0 <;>
      cases hu : userAccepts <;>
        cases h1 : attempt 1 true <;>
          simp_all [loadBlockIndexLoop, LoadLoopResult.attemptCount,
            LoadLoopResult.promptCount]

/-- Witness for C2: both attempts fail and the user approves the reindex —
the loop stops fatally after exactly two attempts and one prompt. -/
theorem C2_loadLoop_at_most_two_attempts_witness :
    loadBlockIndexLoop (fun _ _ => .failed) true 2 false 0 0 =
      .fatalReindexFailure 2 1 :=
  ((C2_loadLoop_at_most_two_attempts (fun _ _ => .failed) true false 2
      (by decide)).2.2.2.1 rfl rfl).2.2 rfl rfl

/-- C3 counterexample: with the cache caps instantiated (minimum 4 MiB,
maximum 16384 MiB, block-index caps 2/1024 MiB, coins-DB cap 8 MiB), a
requested total of 450 MiB lying inside `[minCache, maxCache]` and a 300 MB
mempool budget, the four components sum to strictly more than the clamped
total: the mempool budget is allocated on top of the cache total, not inside
it. -/
theorem C3_cacheBudget_sum_counterexample :
    4 <<< 20 ≤ clampTotalCache ⟨4, 16384, 2, 1024, 8⟩ 450 ∧
    clampTotalCache ⟨4, 16384, 2, 1024, 8⟩ 450 ≤ 16384 <<< 20 ∧
    clampTotalCache ⟨4, 16384, 2, 1024, 8⟩ 450 <
      (computeCacheBudget ⟨4, 16384, 2, 1024, 8⟩ false 450 300).nBlockTreeDBCache +
        (computeCacheBudget ⟨4, 16384, 2, 1024, 8⟩ false 450 300).nCoinDBCache +
        (computeCacheBudget ⟨4, 16384, 2, 1024, 8⟩ false 450 300).nCoinCacheUsage +
        (computeCacheBudget ⟨4, 16384, 2, 1024, 8⟩ false 450 300).nMempoolSizeMax := by
  decide

/-- Unfolding of the block-tree component of the cache budget. -/
theorem computeCacheBudget_nBlockTreeDBCache_eq (p : CacheParams) (fTxIndex : Bool)
    (dbcacheArg maxmempoolArg : Nat) :
    (computeCacheBudget p fTxIndex dbcacheArg maxmempoolArg).nBlockTreeDBCache =
      min (clampTotalCache p dbcacheArg / 8)
        ((if fTxIndex then p.nMaxBlockDBAndTxIndexCache else p.nMaxBlockDBCache) <<< 20) := rfl

/-- Unfolding of the coins-DB component of the cache budget. -/
theorem computeCacheBudget_nCoinDBCache_eq (p : CacheParams) (fTxIndex : Bool)
    (dbcacheArg maxmempoolArg : Nat) :
    (computeCacheBudget p fTxIndex dbcacheArg maxmempoolArg).nCoinDBCache =
      min (min ((clampTotalCache p dbcacheArg -
            min (clampTotalCache p dbcacheArg / 8)
              ((if fTxIndex then p.nMaxBlockDBAndTxIndexCache else p.nMaxBlockDBCache) <<< 20)) / 2)
          ((clampTotalCache p dbcacheArg -
            min (clampTotalCache p dbcacheArg / 8)
              ((if fTxIndex then p.nMaxBlockDBAndTxIndexCache else p.nMaxBlockDBCache) <<< 20)) / 4 +
            (1 <<< 23)))
        (p.nMaxCoinsDBCache <<< 20) := rfl

/-- Unfolding of the in-memory component of the cache budget. -/
theorem computeCacheBudget_nCoinCacheUsage_eq (p : CacheParams) (fTxIndex : Bool)
    (dbcacheArg maxmempoolArg : Nat) :
    (computeCacheBudget p fTxIndex dbcacheArg maxmempoolArg).nCoinCacheUsage =
      (clampTotalCache p dbcacheArg -
          min (clampTotalCache p dbcacheArg / 8)
            ((if fTxIndex then p.nMaxBlockDBAndTxIndexCache else p.nMaxBlockDBCache) <<< 20)) -
        min (min ((clampTotalCache p dbcacheArg -
              min (clampTotalCache p dbcacheArg / 8)
                ((if fTxIndex then p.nMaxBlockDBAndTxIndexCache else p.nMaxBlockDBCache) <<< 20)) / 2)
            ((clampTotalCache p dbcacheArg -
              min (clampTotalCache p dbcacheArg / 8)
                ((if fTxIndex then p.nMaxBlockDBAndTxIndexCache else p.nMaxBlockDBCache) <<< 20)) / 4 +
              (1 <<< 23)))
          (p.nMaxCoinsDBCache <<< 20) := rfl

/-- Unfolding of the mempool component of the cache budget. -/
theorem computeCacheBudget_nMempoolSizeMax_eq (p : CacheParams) (fTxIndex : Bool)
    (dbcacheArg maxmempoolArg : Nat) :
    (computeCacheBudget p fTxIndex dbcacheArg maxmempoolArg).nMempoolSizeMax =
      maxmempoolArg * 1000000 := rfl

/-- The shift constant of the coins-DB floor. -/
theorem oneShl23_eq : (1 : Nat) <<< 23 = 8388608 := rfl

/-- Arithmetic core of the cache split: the three cache allocations
partition the total exactly. -/
theorem cacheArith_three_sum (T c c2 : Nat) :
    min (T / 8) c +
        min (min ((T - min (T / 8) c) / 2) ((T - min (T / 8) c) / 4 + 8388608)) c2 +
        ((T - min (T / 8) c) -
          min (min ((T - min (T / 8) c) / 2) ((T - min (T / 8) c) / 4 + 8388608)) c2) = T := by
  omega

/-- Monotonicity of the block-tree allocation in the total. -/
theorem cacheArith_mono_bt (T1 T2 c : Nat) (h : T1 ≤ T2) :
    min (T1 / 8) c ≤ min (T2 / 8) c := by
  omega

/-- Monotonicity of the coins-DB allocation in the total. -/
theorem cacheArith_mono_cd (T1 T2 c c2 : Nat) (h : T1 ≤ T2) :
    min (min ((T1 - min (T1 / 8) c) / 2) ((T1 - min (T1 / 8) c) / 4 + 8388608)) c2 ≤
      min (min ((T2 - min (T2 / 8) c) / 2) ((T2 - min (T2 / 8) c) / 4 + 8388608)) c2 := by
  omega

/-- Monotonicity of the in-memory allocation in the total. -/
theorem cacheArith_mono_cc (T1 T2 c c2 : Nat) (h : T1 ≤ T2) :
    (T1 - min (T1 / 8) c) -
        min (min ((T1 - min (T1 / 8) c) / 2) ((T1 - min (T1 / 8) c) / 4 + 8388608)) c2 ≤
      (T2 - min (T2 / 8) c) -
        min (min ((T2 - min (T2 / 8) c) / 2) ((T2 - min (T2 / 8) c) / 4 + 8388608)) c2 := by
  omega

/-- The clamped total is monotone in the requested size. -/
theorem clampTotalCache_mono (p : CacheParams) (d1 d2 : Nat) (h : d1 ≤ d2) :
    clampTotalCache p d1 ≤ clampTotalCache p d2 := by
  have hsl : d1 <<< 20 ≤ d2 <<< 20 := by
    simpa [Nat.shiftLeft_eq] using h
  unfold clampTotalCache
  exact min_le_min (max_le_max hsl le_rfl) le_rfl

/-- The quarter-to-half window of the coins-DB candidate value. -/
theorem cacheArith_cd_window (R : Nat) :
    R / 4 ≤ min (R / 2) (R / 4 + 8388608) ∧ min (R / 2) (R / 4 + 8388608) ≤ R / 2 := by
  omega

/-- C3 as amended: the three cache components (block-index, coins-DB,
in-memory) sum to exactly the clamped total `T`, so the four components
including the mempool budget sum to `T` plus the mempool budget (not to at
most `T`); the block-index cache equals `min(T/8, cap)`; the coins-DB cache is
`min(y, capBytes)` for a `y` between a quarter and a half of the remainder
after the block-index allocation; and every component is monotone in the
requested total. -/
theorem C3_cacheBudget_amended (p : CacheParams) (fTxIndex : Bool)
    (dbcacheArg maxmempoolArg : Nat) :
    (computeCacheBudget p fTxIndex dbcacheArg maxmempoolArg).nBlockTreeDBCache +
        (computeCacheBudget p fTxIndex dbcacheArg maxmempoolArg).nCoinDBCache +
        (computeCacheBudget p fTxIndex dbcacheArg maxmempoolArg).nCoinCacheUsage =
      clampTotalCache p dbcacheArg ∧
    (computeCacheBudget p fTxIndex dbcacheArg maxmempoolArg).nBlockTreeDBCache +
        (computeCacheBudget p fTxIndex dbcacheArg maxmempoolArg).nCoinDBCache +
        (computeCacheBudget p fTxIndex dbcacheArg maxmempoolArg).nCoinCacheUsage +
        (computeCacheBudget p fTxIndex dbcacheArg maxmempoolArg).nMempoolSizeMax =
      clampTotalCache p dbcacheArg + maxmempoolArg * 1000000 ∧
    (computeCacheBudget p fTxIndex dbcacheArg maxmempoolArg).nBlockTreeDBCache =
      min (clampTotalCache p dbcacheArg / 8)
        ((if fTxIndex then p.nMaxBlockDBAndTxIndexCache else p.nMaxBlockDBCache) <<< 20) ∧
    ((clampTotalCache p dbcacheArg -
          (computeCacheBudget p fTxIndex dbcacheArg maxmempoolArg).nBlockTreeDBCache) / 4 ≤
        min ((clampTotalCache p dbcacheArg -
            (computeCacheBudget p fTxIndex dbcacheArg maxmempoolArg).nBlockTreeDBCache) / 2)
          ((clampTotalCache p dbcacheArg -
            (computeCacheBudget p fTxIndex dbcacheArg maxmempoolArg).nBlockTreeDBCache) / 4 +
            (1 <<< 23)) ∧
      min ((clampTotalCache p dbcacheArg -
            (computeCacheBudget p fTxIndex dbcacheArg maxmempoolArg).nBlockTreeDBCache) / 2)
          ((clampTotalCache p dbcacheArg -
            (computeCacheBudget p fTxIndex dbcacheArg maxmempoolArg).nBlockTreeDBCache) / 4 +
            (1 <<< 23)) ≤
        (clampTotalCache p dbcacheArg -
            (computeCacheBudget p fTxIndex dbcacheArg maxmempoolArg).nBlockTreeDBCache) / 2 ∧
      (computeCacheBudget p fTxIndex dbcacheArg maxmempoolArg).nCoinDBCache =
        min (min ((clampTotalCache p dbcacheArg -
              (computeCacheBudget p fTxIndex dbcacheArg maxmempoolArg).nBlockTreeDBCache) / 2)
            ((clampTotalCache p dbcacheArg -
              (computeCacheBudget p fTxIndex dbcacheArg maxmempoolArg).nBlockTreeDBCache) / 4 +
              (1 <<< 23)))
          (p.nMaxCoinsDBCache <<< 20)) ∧
    (∀ d1 d2 : Nat, d1 ≤ d2 →
      (computeCacheBudget p fTxIndex d1 maxmempoolArg).nBlockTreeDBCache ≤
          (computeCacheBudget p fTxIndex d2 maxmempoolArg).nBlockTreeDBCache ∧
        (computeCacheBudget p fTxIndex d1 maxmempoolArg).nCoinDBCache ≤
          (computeCacheBudget p fTxIndex d2 maxmempoolArg).nCoinDBCache ∧
        (computeCacheBudget p fTxIndex d1 maxmempoolArg).nCoinCacheUsage ≤
          (computeCacheBudget p fTxIndex d2 maxmempoolArg).nCoinCacheUsage ∧
        (computeCacheBudget p fTxIndex d1 maxmempoolArg).nMempoolSizeMax ≤
          (computeCacheBudget p fTxIndex d2 maxmempoolArg).nMempoolSizeMax) := by
  refine ⟨?_, ?_, computeCacheBudget_nBlockTreeDBCache_eq p fTxIndex dbcacheArg maxmempoolArg,
    ⟨?_, ?_, ?_⟩, ?_⟩
  · rw [computeCacheBudget_nBlockTreeDBCache_eq, computeCacheBudget_nCoinDBCache_eq,
      computeCacheBudget_nCoinCacheUsage_eq]
    simp only [oneShl23_eq]
    exact cacheArith_three_sum (clampTotalCache p dbcacheArg)
      ((if fTxIndex then p.nMaxBlockDBAndTxIndexCache else p.nMaxBlockDBCache) <<< 20)
      (p.nMaxCoinsDBCache <<< 20)
  · rw [computeCacheBudget_nBlockTreeDBCache_eq, computeCacheBudget_nCoinDBCache_eq,
      computeCacheBudget_nCoinCacheUsage_eq, computeCacheBudget_nMempoolSizeMax_eq]
    simp only [oneShl23_eq]
    have h3 := cacheArith_three_sum (clampTotalCache p dbcacheArg)
      ((if fTxIndex then p.nMaxBlockDBAndTxIndexCache else p.nMaxBlockDBCache) <<< 20)
      (p.nMaxCoinsDBCache <<< 20)
    omega
  · rw [computeCacheBudget_nBlockTreeDBCache_eq]
    simp only [oneShl23_eq]
    exact (cacheArith_cd_window _).1
  · rw [computeCacheBudget_nBlockTreeDBCache_eq]
    simp only [oneShl23_eq]
    exact (cacheArith_cd_window _).2
  · rw [computeCacheBudget_nBlockTreeDBCache_eq]
    exact computeCacheBudget_nCoinDBCache_eq p fTxIndex dbcacheArg maxmempoolArg
  · intro d1 d2 hd
    have hT := clampTotalCache_mono p d1 d2 hd
    refine ⟨?_, ?_, ?_, ?_⟩
    · rw [computeCacheBudget_nBlockTreeDBCache_eq, computeCacheBudget_nBlockTreeDBCache_eq]
      exact cacheArith_mono_bt _ _ _ hT
    · rw [computeCacheBudget_nCoinDBCache_eq, computeCacheBudget_nCoinDBCache_eq]
      simp only [oneShl23_eq]
      exact cacheArith_mono_cd _ _ _ _ hT
    · rw [computeCacheBudget_nCoinCacheUsage_eq, computeCacheBudget_nCoinCacheUsage_eq]
      simp only [oneShl23_eq]
      exact cacheArith_mono_cc _ _ _ _ hT
    · rw [computeCacheBudget_nMempoolSizeMax_eq, computeCacheBudget_nMempoolSizeMax_eq]

/-- Witness for C3 as amended, at the concrete cap set and requested totals
450 (exact three-way split) and 100 ≤ 200 (monotonicity of the in-memory
component). -/
theorem C3_cacheBudget_amended_witness :
    (computeCacheBudget ⟨4, 16384, 2, 1024, 8⟩ false 450 300).nBlockTreeDBCache +
        (computeCacheBudget ⟨4, 16384, 2, 1024, 8⟩ false 450 300).nCoinDBCache +
        (computeCacheBudget ⟨4, 16384, 2, 1024, 8⟩ false 450 300).nCoinCacheUsage =
      clampTotalCache ⟨4, 16384, 2, 1024, 8⟩ 450 ∧
    (computeCacheBudget ⟨4, 16384, 2, 1024, 8⟩ false 100 300).nCoinCacheUsage ≤
      (computeCacheBudget ⟨4, 16384, 2, 1024, 8⟩ false 200 300).nCoinCacheUsage :=
  ⟨(C3_cacheBudget_amended ⟨4, 16384, 2, 1024, 8⟩ false 450 300).1,
   ((C3_cacheBudget_amended ⟨4, 16384, 2, 1024, 8⟩ false 450 300).2.2.2.2 100 200
      (by decide)).2.2.1⟩

/-- C4 counterexample: on a host reporting exactly 1 GiB of physical memory —
at the threshold, hence at or above it — with no explicit settings, the
low-memory interaction does change the settings (the trigger in the source is
`<=`, not `<`): `-maxconnections` becomes 40 and all five warnings are
emitted. -/
theorem C4_lowmem_threshold_counterexample :
    1 * 1024 * 1024 * 1024 ≤ 1 * 1024 * 1024 * 1024 ∧
    (AppInitLowMemoryInteraction 100 (1 * 1024 * 1024 * 1024)
        ⟨none, none, none, none, none⟩).1.maxconnections = some 40 ∧
    (AppInitLowMemoryInteraction 100 (1 * 1024 * 1024 * 1024)
        ⟨none, none, none, none, none⟩).2 =
      [.reduceMaxConnections, .reduceMaxMempool, .reduceDbCache, .reduceRpcThreads,
        .disableReverseHeaders] := by
  decide

/-- C4 as amended: the trigger condition is physical memory at or below 1 GiB
(the source compares with `<=`).  When it holds, every slot the user did not
set explicitly is set to its low-memory value (40 connections, the reduced
mempool constant, 200 MiB cache, 1 RPC worker, reverse-header sync off), a
warning is emitted exactly for the slots actually changed, and every
explicitly set slot is left untouched; on hosts strictly above 1 GiB nothing
changes and no warning is emitted. -/
theorem C4_lowmem_amended (lowD : Int) (mem : Nat) (a : LowMemUserArgs) :
    (mem ≤ 1 * 1024 * 1024 * 1024 →
      ((AppInitLowMemoryInteraction lowD mem a).1.maxconnections =
          some (a.maxconnections.getD 40) ∧
        (AppInitLowMemoryInteraction lowD mem a).1.maxmempool =
          some (a.maxmempool.getD lowD) ∧
        (AppInitLowMemoryInteraction lowD mem a).1.dbcache =
          some (a.dbcache.getD 200) ∧
        (AppInitLowMemoryInteraction lowD mem a).1.rpcthreads =
          some (a.rpcthreads.getD 1) ∧
        (AppInitLowMemoryInteraction lowD mem a).1.reverseheaders =
          some (a.reverseheaders.getD false)) ∧
      (LowMemWarning.reduceMaxConnections ∈ (AppInitLowMemoryInteraction lowD mem a).2 ↔
        a.maxconnections = none) ∧
      (LowMemWarning.reduceMaxMempool ∈ (AppInitLowMemoryInteraction lowD mem a).2 ↔
        a.maxmempool = none) ∧
      (LowMemWarning.reduceDbCache ∈ (AppInitLowMemoryInteraction lowD mem a).2 ↔
        a.dbcache = none) ∧
      (LowMemWarning.reduceRpcThreads ∈ (AppInitLowMemoryInteraction lowD mem a).2 ↔
        a.rpcthreads = none) ∧
      (LowMemWarning.disableReverseHeaders ∈ (AppInitLowMemoryInteraction lowD mem a).2 ↔
        a.reverseheaders = none)) ∧
    (1 * 1024 * 1024 * 1024 < mem →
      AppInitLowMemoryInteraction lowD mem a = (a, [])) := by
  constructor
  · intro h
    rcases a with ⟨mc, mm, dc, rt, rh⟩
    simp only [AppInitLowMemoryInteraction, if_pos h, SoftSetArg, SoftSetBoolArg]
    cases mc <;> cases mm <;> cases dc <;> cases rt <;> cases rh <;> simp
  · intro h
    have hno : ¬ (mem ≤ 1 * 1024 * 1024 * 1024) := Nat.not_le.mpr h
    simp [AppInitLowMemoryInteraction, if_neg hno]

/-- Witness for C4 as amended: a 512-byte host with an explicit
`-maxconnections=125` keeps the explicit value, gets the reduced cache, and a
2 GiB host is left untouched. -/
theorem C4_lowmem_amended_witness :
    (AppInitLowMemoryInteraction 100 512
        ⟨some 125, none, none, none, none⟩).1.maxconnections = some 125 ∧
    (AppInitLowMemoryInteraction 100 512
        ⟨some 125, none, none, none, none⟩).1.dbcache = some 200 ∧
    AppInitLowMemoryInteraction 100 (2 * 1024 * 1024 * 1024)
        ⟨none, none, none, none, none⟩ = (⟨none, none, none, none, none⟩, []) :=
  ⟨by simpa using
      ((C4_lowmem_amended 100 512 ⟨some 125, none, none, none, none⟩).1 (by decide)).1.1,
   by simpa using
      ((C4_lowmem_amended 100 512 ⟨some 125, none, none, none, none⟩).1 (by decide)).1.2.2.1,
   (C4_lowmem_amended 100 (2 * 1024 * 1024 * 1024)
      ⟨none, none, none, none, none⟩).2 (by decide)⟩

/-- Characterization of the contiguity walk: on a strictly sorted list whose
elements all lie at or above the counter, it keeps exactly the elements `m`
such that every index from the counter up to `m` is present. -/
theorem cleanupContigWalk_mem_iff :
    ∀ (l : List Nat) (c : Nat), List.Sorted (· < ·) l → (∀ x ∈ l, c ≤ x) →
      ∀ m, m ∈ cleanupContigWalk c l ↔ (m ∈ l ∧ ∀ j, c ≤ j → j ≤ m → j ∈ l) := by
  intro l
  induction l with
  | nil =>
    intro c _ _ m
    simp [cleanupContigWalk]
  | cons k ks ih =>
    intro c hsorted hge m
    rw [List.sorted_cons] at hsorted
    obtain ⟨hk_lt, hsorted2⟩ := hsorted
    by_cases hk : k = c
    · subst hk
      simp only [cleanupContigWalk, if_pos rfl]
      have hge2 : ∀ x ∈ ks, k + 1 ≤ x := fun x hx => hk_lt x hx
      have IH := ih (k + 1) hsorted2 hge2 m
      constructor
      · intro hm
        rcases List.mem_cons.mp hm with rfl | hm2
        · refine ⟨List.mem_cons_self _ _, fun j hj1 hj2 => ?_⟩
          have : j = m := le_antisymm hj2 hj1
          subst this
          exact List.mem_cons_self _ _
        · obtain ⟨hmem, hall⟩ := IH.mp hm2
          refine ⟨List.mem_cons_of_mem _ hmem, fun j hj1 hj2 => ?_⟩
          rcases Nat.eq_or_lt_of_le hj1 with rfl | hj1b
          · exact List.mem_cons_self _ _
          · exact List.mem_cons_of_mem _ (hall j hj1b hj2)
      · rintro ⟨hmem, hall⟩
        rcases List.mem_cons.mp hmem with rfl | hm2
        · exact List.mem_cons_self _ _
        · have hkm : k + 1 ≤ m := hk_lt m hm2
          refine List.mem_cons_of_mem _ (IH.mpr ⟨hm2, fun j hj1 hj2 => ?_⟩)
          have hjk : k ≤ j := Nat.le_of_succ_le hj1
          have := hall j hjk hj2
          rcases List.mem_cons.mp this with rfl | hjm
          · omega
          · exact hjm
    · have hck : c < k :=
        lt_of_le_of_ne (hge k (List.mem_cons_self _ _)) (Ne.symm hk)
      simp only [cleanupContigWalk, if_neg hk]
      have hge2 : ∀ x ∈ ks, c ≤ x := fun x hx =>
        le_of_lt (lt_trans hck (hk_lt x hx))
      rw [ih c hsorted2 hge2 m]
      constructor
      · rintro ⟨hm2, hall⟩
        have hcm : c ≤ m := le_of_lt (lt_trans hck (hk_lt m hm2))
        have hc := hall c le_rfl hcm
        have := hk_lt c hc
        omega
      · rintro ⟨hmem, hall⟩
        have hcm : c ≤ m := by
          rcases List.mem_cons.mp hmem with rfl | hm2
          · exact le_of_lt hck
          · exact le_of_lt (lt_trans hck (hk_lt m hm2))
        have hc := hall c le_rfl hcm
        rcases List.mem_cons.mp hc with h1 | h2
        · exact absurd h1.symm hk
        · have := hk_lt c h2
          omega

/-- C5: on a directory with distinct file indices, the reindex cleanup removes
every `rev` file and keeps exactly the `blk` files forming the contiguous run
of indices starting at 0 (a file with index `m` survives iff every index up to
`m` is present); in particular a directory holding `blk00000.dat`,
`blk00002.dat` and `rev00000.dat` is left holding only `blk00000.dat`. -/
theorem C5_CleanupBlockRevFiles_contiguous (d : BlocksDirectory)
    (hnd : d.blkFiles.Nodup) :
    (CleanupBlockRevFiles d).revFiles = [] ∧
    (∀ m, m ∈ (CleanupBlockRevFiles d).blkFiles ↔
      (m ∈ d.blkFiles ∧ ∀ j ≤ m, j ∈ d.blkFiles)) ∧
    CleanupBlockRevFiles ⟨[0, 2], [0]⟩ = ⟨[0], []⟩ := by
  refine ⟨rfl, ?_, by decide⟩
  intro m
  have hperm := List.perm_insertionSort (· ≤ ·) d.blkFiles
  have hsorted : List.Sorted (· ≤ ·) (List.insertionSort (· ≤ ·) d.blkFiles) :=
    List.sorted_insertionSort (· ≤ ·) d.blkFiles
  have hnd2 : (List.insertionSort (· ≤ ·) d.blkFiles).Nodup := hperm.nodup_iff.mpr hnd
  have hlt : List.Sorted (· < ·) (List.insertionSort (· ≤ ·) d.blkFiles) :=
    (hsorted.and hnd2).imp fun h => lt_of_le_of_ne h.1 h.2
  have hiff := cleanupContigWalk_mem_iff (List.insertionSort (· ≤ ·) d.blkFiles) 0 hlt
    (fun x _ => Nat.zero_le x) m
  simp only [CleanupBlockRevFiles]
  rw [hiff]
  simp only [hperm.mem_iff, Nat.zero_le, true_implies]

/-- Witness for C5 at the directory of the spec example. -/
theorem C5_CleanupBlockRevFiles_contiguous_witness :
    CleanupBlockRevFiles ⟨[0, 2], [0]⟩ = ⟨[0], []⟩ :=
  (C5_CleanupBlockRevFiles_contiguous ⟨[0, 2], [0]⟩ (by decide)).2.2

/-- The reindex scan visits exactly the block files 0, 1, ..., up to the first
missing (or unopenable) index, in order, whenever the fuel bound exceeds that
index. -/
theorem reindexScanEvents_eq (ex op : Nat → Bool) (N : Nat)
    (hfiles : ∀ n, n < N → ex n = true ∧ op n = true)
    (hstop : ex N = false ∨ op N = false) :
    ∀ fuel start, start ≤ N → N < start + fuel →
      reindexScanEvents ex op fuel start =
        (List.range' start (N - start)).map ImportEvent.reindexBlockFile := by
  intro fuel
  induction fuel with
  | zero =>
    intro start h1 h2
    omega
  | succ fuel ih =>
    intro start h1 h2
    rcases Nat.eq_or_lt_of_le h1 with rfl | hlt
    · simp only [reindexScanEvents, Nat.sub_self]
      rcases hstop with hs | hs <;> simp [hs]
    · have hex := (hfiles start hlt).1
      have hop := (hfiles start hlt).2
      simp only [reindexScanEvents, hex, hop, if_true]
      rw [ih (start + 1) hlt (by omega)]
      have hN : N - start = (N - (start + 1)) + 1 := by omega
      rw [hN, List.range'_succ]
      simp

/-- C6: under the hypotheses that block files 0..N-1 exist and open while
index N stops the scan, and enough fuel, the import worker's trace is exactly:
the reindex scan over files 0..N-1 (when `-reindex` is set) followed by the
end-of-reindex bookkeeping, then the bootstrap import-and-rename (only when
the bootstrap file exists and opens), then the openable `-loadblock` files in
user order, then best-chain activation, then the shutdown requests of an
activation failure and of `-stopafterblockimport`, then the mempool reload;
an activation failure puts a shutdown request in the trace (the worker has no
error return), and the rename-to-old event occurs exactly when the bootstrap
file was imported. -/
theorem C6_ThreadImport_order (env : ImportEnv) (N fuel : Nat)
    (hfiles : ∀ n, n < N →
      env.blockFileExists n = true ∧ env.blockFileOpens n = true)
    (hstop : env.blockFileExists N = false ∨ env.blockFileOpens N = false)
    (hfuel : N < fuel) :
    (ThreadImport env fuel).1 =
      (if env.fReindex then
        (List.range N).map ImportEvent.reindexBlockFile ++
          [ImportEvent.writeReindexingDone, ImportEvent.initBlockIndexAfterReindex]
      else []) ++
      (if env.bootstrapExists && env.bootstrapOpens then
        [ImportEvent.importBootstrapFile, ImportEvent.renameBootstrapOld]
      else []) ++
      (env.vImportFiles.filterMap fun pb =>
        if pb.2 then some (ImportEvent.importExplicitFile pb.1) else none) ++
      [ImportEvent.activateBestChainEvent] ++
      (if env.activateBestChainOk then [] else [ImportEvent.requestShutdown]) ++
      (if env.stopAfterBlockImport then [ImportEvent.requestShutdown] else []) ++
      (if env.persistMempool then [ImportEvent.loadMempoolAtEnd] else []) ∧
    (env.activateBestChainOk = false →
      ImportEvent.requestShutdown ∈ (ThreadImport env fuel).1) ∧
    (ImportEvent.renameBootstrapOld ∈ (ThreadImport env fuel).1 ↔
      env.bootstrapExists = true ∧ env.bootstrapOpens = true) := by
  have hscan : reindexScanEvents env.blockFileExists env.blockFileOpens fuel 0 =
      (List.range N).map ImportEvent.reindexBlockFile := by
    have h := reindexScanEvents_eq env.blockFileExists env.blockFileOpens N hfiles hstop
      fuel 0 (Nat.zero_le N) (by omega)
    rw [Nat.sub_zero, ← List.range_eq_range'] at h
    exact h
  have h1 : (ThreadImport env fuel).1 =
      (if env.fReindex then
        (List.range N).map ImportEvent.reindexBlockFile ++
          [ImportEvent.writeReindexingDone, ImportEvent.initBlockIndexAfterReindex]
      else []) ++
      (if env.bootstrapExists && env.bootstrapOpens then
        [ImportEvent.importBootstrapFile, ImportEvent.renameBootstrapOld]
      else []) ++
      (env.vImportFiles.filterMap fun pb =>
        if pb.2 then some (ImportEvent.importExplicitFile pb.1) else none) ++
      [ImportEvent.activateBestChainEvent] ++
      (if env.activateBestChainOk then [] else [ImportEvent.requestShutdown]) ++
      (if env.stopAfterBlockImport then [ImportEvent.requestShutdown] else []) ++
      (if env.persistMempool then [ImportEvent.loadMempoolAtEnd] else []) := by
    cases hb : env.bootstrapExists <;> cases ho : env.bootstrapOpens <;>
      simp [ThreadImport, hscan, hb, ho]
  refine ⟨h1, ?_, ?_⟩
  · intro hfail
    rw [h1]
    simp [hfail]
  · have hnr : ImportEvent.renameBootstrapOld ∉ (env.vImportFiles.filterMap fun pb =>
        if pb.2 then some (ImportEvent.importExplicitFile pb.1) else none) := by
      intro hmem
      obtain ⟨pb, _, heq⟩ := List.mem_filterMap.mp hmem
      by_cases hb : pb.2 <;> simp [hb] at heq
    rw [h1]
    cases hr : env.fReindex <;> cases hb : env.bootstrapExists <;>
      cases ho : env.bootstrapOpens <;> cases ha : env.activateBestChainOk <;>
        cases hs : env.stopAfterBlockImport <;> cases hp : env.persistMempool <;>
          simp [hnr]

/-- Witness for C6: two reindexed block files, an imported bootstrap, one
openable and one unopenable explicit file, a failing activation and
`-persistmempool`. -/
theorem C6_ThreadImport_order_witness :
    (ThreadImport
      { fReindex := true
        blockFileExists := fun n => decide (n < 2)
        blockFileOpens := fun _ => true
        bootstrapExists := true
        bootstrapOpens := true
        vImportFiles := [("a.dat", true), ("b.dat", false)]
        activateBestChainOk := false
        stopAfterBlockImport := false
        persistMempool := true
        shutdownRequestedAtEnd := false } 3).1 =
      [ImportEvent.reindexBlockFile 0, ImportEvent.reindexBlockFile 1,
        ImportEvent.writeReindexingDone, ImportEvent.initBlockIndexAfterReindex,
        ImportEvent.importBootstrapFile, ImportEvent.renameBootstrapOld,
        ImportEvent.importExplicitFile "a.dat", ImportEvent.activateBestChainEvent,
        ImportEvent.requestShutdown, ImportEvent.loadMempoolAtEnd] := by
  rw [(C6_ThreadImport_order
    { fReindex := true
      blockFileExists := fun n => decide (n < 2)
      blockFileOpens := fun _ => true
      bootstrapExists := true
      bootstrapOpens := true
      vImportFiles := [("a.dat", true), ("b.dat", false)]
      activateBestChainOk := false
      stopAfterBlockImport := false
      persistMempool := true
      shutdownRequestedAtEnd := false } 2 3
    (by decide) (by decide) (by decide)).1]
  decide

/-- C10: `CoreShutdown` writes the mempool snapshot exactly when
`-persistmempool` is enabled, the import worker reached its end-of-run
mempool-load step, and no shutdown request was pending when that step sampled
`ShutdownRequested()` — a request before or during the load, or a run that
never reached the step, leaves the flag `false` and no snapshot is written. -/
theorem C10_mempool_dump_iff (env : ImportEnv) (importReachedMempoolStep : Bool)
    (fuel : Nat) :
    CoreShutdownDumpsMempool env.persistMempool
        (fDumpMempoolLaterAtShutdown env importReachedMempoolStep fuel) =
      (env.persistMempool && importReachedMempoolStep &&
        !env.shutdownRequestedAtEnd) := by
  cases hr : importReachedMempoolStep <;>
    cases hp : env.persistMempool <;>
      cases hs : env.shutdownRequestedAtEnd <;>
        simp [CoreShutdownDumpsMempool, fDumpMempoolLaterAtShutdown, ThreadImport,
          hp, hs]

/-- Folding any block of `TRY_LOCK` attempts executes no teardown step. -/
theorem coreShutdown_foldl_tryEnter (ids : List Nat) :
    ∀ s : ShutdownTraceState,
      ((ids.map ShutdownEvent.tryEnter).foldl CoreShutdownStep s).executed =
        s.executed := by
  induction ids with
  | nil =>
    intro s
    rfl
  | cons i is ih =>
    intro s
    simp only [List.map_cons, List.foldl_cons]
    rw [ih (CoreShutdownStep s (ShutdownEvent.tryEnter i))]
    cases h : s.holder <;> simp [CoreShutdownStep, h]

/-- With the lock free, a block of completions is a no-op: only the holder can
complete, and there is none. -/
theorem coreShutdown_foldl_finish_none (fids : List Nat) :
    ∀ s : ShutdownTraceState, s.holder = none →
      ((fids.map ShutdownEvent.finish).foldl CoreShutdownStep s).executed =
        s.executed := by
  induction fids with
  | nil =>
    intro s _
    rfl
  | cons i is ih =>
    intro s hs
    simp only [List.map_cons, List.foldl_cons]
    have hstep : CoreShutdownStep s (ShutdownEvent.finish i) = s := by
      simp [CoreShutdownStep, hs]
    rw [hstep]
    exact ih s hs

/-- A block of completions appends the teardown sequence at most once: after
the holder completes, the lock is free and no further completion fires. -/
theorem coreShutdown_foldl_finish (fids : List Nat) :
    ∀ s : ShutdownTraceState,
      ((fids.map ShutdownEvent.finish).foldl CoreShutdownStep s).executed =
          s.executed ∨
        ((fids.map ShutdownEvent.finish).foldl CoreShutdownStep s).executed =
          s.executed ++ teardownSequence := by
  induction fids with
  | nil =>
    intro s
    exact Or.inl rfl
  | cons i is ih =>
    intro s
    simp only [List.map_cons, List.foldl_cons]
    by_cases h : s.holder = some i
    · have hstep : CoreShutdownStep s (ShutdownEvent.finish i) =
          { s with holder := none, executed := s.executed ++ teardownSequence } := by
        simp [CoreShutdownStep, h]
      rw [hstep]
      exact Or.inr (coreShutdown_foldl_finish_none is _ rfl)
    · have hstep : CoreShutdownStep s (ShutdownEvent.finish i) = s := by
        simp [CoreShutdownStep, h]
      rw [hstep]
      exact ih s

/-- C7: in any interleaving of concurrent `CoreShutdown` calls in which every
`TRY_LOCK` happens while the teardown of the winner is still in progress (all
lock attempts precede all completions), every teardown step executes at most
once — the final executed list is nothing or exactly one teardown sequence —
and in the concrete two-call overlap the first call performs the whole
sequence exactly once while the second returns immediately. -/
theorem C7_CoreShutdown_idempotent (events : List ShutdownEvent)
    (ids fids : List Nat)
    (hsplit : events = ids.map ShutdownEvent.tryEnter ++
      fids.map ShutdownEvent.finish) :
    (∀ st : TeardownStep, (CoreShutdownRun events).executed.count st ≤ 1) ∧
    ((CoreShutdownRun events).executed = [] ∨
      (CoreShutdownRun events).executed = teardownSequence) ∧
    CoreShutdownRun [ShutdownEvent.tryEnter 0, ShutdownEvent.tryEnter 1,
        ShutdownEvent.finish 0] =
      { holder := none, executed := teardownSequence, immediateReturns := [1] } := by
  have hrun : (CoreShutdownRun events).executed = [] ∨
      (CoreShutdownRun events).executed = teardownSequence := by
    rw [hsplit]
    unfold CoreShutdownRun
    rw [List.foldl_append]
    have hA := coreShutdown_foldl_tryEnter ids ⟨none, [], []⟩
    rcases coreShutdown_foldl_finish fids
        ((ids.map ShutdownEvent.tryEnter).foldl CoreShutdownStep ⟨none, [], []⟩) with
      hB | hB
    · left
      rw [hB, hA]
    · right
      rw [hB, hA]
      simp
  refine ⟨?_, hrun, by decide⟩
  intro st
  have hnodup : teardownSequence.Nodup := by decide
  rcases hrun with h | h <;> rw [h]
  · simp
  · exact List.nodup_iff_count_le_one.mp hnodup st

/-- Witness for C7 at the concrete two-call overlap. -/
theorem C7_CoreShutdown_idempotent_witness :
    CoreShutdownRun [ShutdownEvent.tryEnter 0, ShutdownEvent.tryEnter 1,
        ShutdownEvent.finish 0] =
      { holder := none, executed := teardownSequence, immediateReturns := [1] } ∧
    (CoreShutdownRun [ShutdownEvent.tryEnter 0, ShutdownEvent.tryEnter 1,
        ShutdownEvent.finish 0]).executed.count TeardownStep.closeCoinDatabases ≤ 1 :=
  ⟨(C7_CoreShutdown_idempotent
      [ShutdownEvent.tryEnter 0, ShutdownEvent.tryEnter 1, ShutdownEvent.finish 0]
      [0, 1] [0] rfl).2.2,
   (C7_CoreShutdown_idempotent
      [ShutdownEvent.tryEnter 0, ShutdownEvent.tryEnter 1, ShutdownEvent.finish 0]
      [0, 1] [0] rfl).1 TeardownStep.closeCoinDatabases⟩


/-- With `upgradeOnceOnly` cleared, a pass never requests another
`goto loadblockindex`: both upgrade blocks are guarded by the flag. -/
theorem loadBlockIndexAttemptPass_false_no_restart (env : LoadAttemptEnv)
    (fR : Bool) (b : Bool) :
    loadBlockIndexAttemptPass env false fR ≠ LoadPassOutcome.restart b := by
  have hite : ∀ (p : Prop) (inst : Decidable p) (x y : LoadPassOutcome),
      x ≠ LoadPassOutcome.restart b → y ≠ LoadPassOutcome.restart b →
      (@ite _ p inst x y) ≠ LoadPassOutcome.restart b := by
    intro p inst x y hx hy
    by_cases hp : p
    · rw [if_pos hp]
      exact hx
    · rw [if_neg hp]
      exact hy
  simp only [loadBlockIndexAttemptPass, Bool.false_and,
    if_neg (show ¬(false = true) by decide)]
  repeat' apply hite
  all_goals intro h
  all_goals exact LoadPassOutcome.noConfusion h

/-- A pass can only reach the loaded outcome through the `-txindex`
compatibility check, which a stored/configured mismatch fails. -/
theorem loadBlockIndexAttemptPass_mismatch_not_loaded (env : LoadAttemptEnv)
    (hbne : (env.fTxIndexStored != env.txIndexArg) = true) (u fR : Bool) :
    loadBlockIndexAttemptPass env u fR ≠
      LoadPassOutcome.done LoadAttemptResult.loaded := by
  have hite : ∀ (p : Prop) (inst : Decidable p) (x y : LoadPassOutcome),
      x ≠ LoadPassOutcome.done LoadAttemptResult.loaded →
      y ≠ LoadPassOutcome.done LoadAttemptResult.loaded →
      (@ite _ p inst x y) ≠ LoadPassOutcome.done LoadAttemptResult.loaded := by
    intro p inst x y hx hy
    by_cases hp : p
    · rw [if_pos hp]
      exact hx
    · rw [if_neg hp]
      exact hy
  simp only [loadBlockIndexAttemptPass, hbne, eq_self_iff_true, if_true]
  repeat' apply hite
  all_goals intro h
  all_goals first
    | exact LoadPassOutcome.noConfusion h
    | (injection h with h2; exact LoadAttemptResult.noConfusion h2)

/-- Evaluation of a full attempt whose first pass terminates. -/
theorem loadBlockIndexAttempt_eq_done (env : LoadAttemptEnv) (fR : Bool)
    (r : LoadAttemptResult)
    (h : loadBlockIndexAttemptPass env true fR = LoadPassOutcome.done r) :
    loadBlockIndexAttempt env fR = r := by
  unfold loadBlockIndexAttempt
  rw [h]

/-- Evaluation of a full attempt whose first pass restarts once. -/
theorem loadBlockIndexAttempt_eq_restart_done (env : LoadAttemptEnv)
    (fR fR2 : Bool) (r : LoadAttemptResult)
    (h1 : loadBlockIndexAttemptPass env true fR = LoadPassOutcome.restart fR2)
    (h2 : loadBlockIndexAttemptPass env false fR2 = LoadPassOutcome.done r) :
    loadBlockIndexAttempt env fR = r := by
  unfold loadBlockIndexAttempt
  rw [h1]
  show (match loadBlockIndexAttemptPass env false fR2 with
    | LoadPassOutcome.done r => r
    | LoadPassOutcome.restart _ =>
        LoadAttemptResult.failed LoadAttemptError.loadBlockDatabaseError) = r
  rw [h2]

/-- C8: when the transaction-index flag loaded from the block database
differs from the configured `-txindex`, a load attempt never reaches the
loaded state, and whenever the stages before the compatibility check succeed
the attempt fails with exactly the rebuild-with-reindex-chainstate error —
the changed flag is never silently accepted. -/
theorem C8_txindex_change_fails (env : LoadAttemptEnv) (fReindex : Bool)
    (hmismatch : env.fTxIndexStored ≠ env.txIndexArg) :
    loadBlockIndexAttempt env fReindex ≠ LoadAttemptResult.loaded ∧
    ((fReindex = true ∨ env.upgradeOk = true) → env.loadBlockIndexOk = true →
      env.genesisOk = true → env.initBlockIndexOk = true →
      loadBlockIndexAttempt env fReindex =
        LoadAttemptResult.failed LoadAttemptError.txIndexChangedError) := by
  have hbne : (env.fTxIndexStored != env.txIndexArg) = true := bne_iff_ne.mpr hmismatch
  constructor
  · intro hload
    cases hp : loadBlockIndexAttemptPass env true fReindex with
    | done r =>
      have he := loadBlockIndexAttempt_eq_done env fReindex r hp
      exact loadBlockIndexAttemptPass_mismatch_not_loaded env hbne true fReindex
        ((he.symm.trans hload) ▸ hp)
    | restart fR2 =>
      cases hq : loadBlockIndexAttemptPass env false fR2 with
      | done r =>
        have he := loadBlockIndexAttempt_eq_restart_done env fReindex fR2 r hp hq
        exact loadBlockIndexAttemptPass_mismatch_not_loaded env hbne false fR2
          ((he.symm.trans hload) ▸ hq)
      | restart b =>
        exact loadBlockIndexAttemptPass_false_no_restart env fR2 b hq
  · intro hup hloadok hgen hinit
    have h1 : (!fReindex && !env.upgradeOk) = false := by
      rcases hup with h | h <;> simp [h]
    by_cases hprev : env.nPreviousVersion < 1
    · by_cases hres : env.resyncForUpgradeArg = true
      · have hp1 : loadBlockIndexAttemptPass env true fReindex =
            LoadPassOutcome.restart true := by
          simp [loadBlockIndexAttemptPass, h1, hprev, hres]
        have hp2 : loadBlockIndexAttemptPass env false true =
            LoadPassOutcome.done
              (LoadAttemptResult.failed LoadAttemptError.txIndexChangedError) := by
          simp [loadBlockIndexAttemptPass, hbne, hloadok, hgen, hinit]
        exact loadBlockIndexAttempt_eq_restart_done env fReindex true _ hp1 hp2
      · cases hubi : env.upgradeBlockIndexOk with
        | true =>
          have hp1 : loadBlockIndexAttemptPass env true fReindex =
              LoadPassOutcome.restart fReindex := by
            simp [loadBlockIndexAttemptPass, h1, hprev, hres, hubi, hloadok]
          have hp2 : loadBlockIndexAttemptPass env false fReindex =
              LoadPassOutcome.done
                (LoadAttemptResult.failed LoadAttemptError.txIndexChangedError) := by
            simp [loadBlockIndexAttemptPass, h1, hbne, hloadok, hgen, hinit]
          exact loadBlockIndexAttempt_eq_restart_done env fReindex fReindex _ hp1 hp2
        | false =>
          have hp1 : loadBlockIndexAttemptPass env true fReindex =
              LoadPassOutcome.restart true := by
            simp [loadBlockIndexAttemptPass, h1, hprev, hres, hubi, hloadok]
          have hp2 : loadBlockIndexAttemptPass env false true =
              LoadPassOutcome.done
                (LoadAttemptResult.failed LoadAttemptError.txIndexChangedError) := by
            simp [loadBlockIndexAttemptPass, hbne, hloadok, hgen, hinit]
          exact loadBlockIndexAttempt_eq_restart_done env fReindex true _ hp1 hp2
    · have hp1 : loadBlockIndexAttemptPass env true fReindex =
          LoadPassOutcome.done
            (LoadAttemptResult.failed LoadAttemptError.txIndexChangedError) := by
        simp [loadBlockIndexAttemptPass, h1, hbne, hloadok, hgen, hinit, hprev]
      exact loadBlockIndexAttempt_eq_done env fReindex _ hp1

/-- Witness for C8: a database recording `txindex=true` run against a
`-txindex=false` configuration, all other stages healthy. -/
theorem C8_txindex_change_fails_witness :
    loadBlockIndexAttempt
      { upgradeOk := true, nPreviousVersion := 1, resyncForUpgradeArg := false,
        loadBlockIndexOk := true, upgradeBlockIndexOk := true, genesisOk := true,
        initBlockIndexOk := true, fTxIndexStored := true, txIndexArg := false,
        fHavePruned := false, fPruneMode := false, hasChainTip := true,
        rewindOk := true, tipInFuture := false, verifyDbOk := true } false =
      LoadAttemptResult.failed LoadAttemptError.txIndexChangedError :=
  (C8_txindex_change_fails
    { upgradeOk := true, nPreviousVersion := 1, resyncForUpgradeArg := false,
      loadBlockIndexOk := true, upgradeBlockIndexOk := true, genesisOk := true,
      initBlockIndexOk := true, fTxIndexStored := true, txIndexArg := false,
      fHavePruned := false, fPruneMode := false, hasChainTip := true,
      rewindOk := true, tipInFuture := false, verifyDbOk := true } false
    (by decide)).2 (Or.inr rfl) rfl rfl rfl

/-- C9 counterexample: with an add-node reserve of 8, one bind address, a
160-descriptor system ceiling and a raised limit of 155 descriptors — which
passes the `MIN_CORE_FILEDESCRIPTORS` check — the resolved connection ceiling
is −3, which is negative, refuting the claim that the resolved ceiling is
never negative. -/
theorem C9_negative_ceiling_counterexample :
    resolveConnectionLimits 8 100 1 160 155 = FdResolveResult.resolved (-3) 155 ∧
    (-3 : Int) < 0 := by
  decide

/-- C9 as amended: a raised descriptor count below `MIN_CORE_FILEDESCRIPTORS`
fails with the resource-exhausted error before the node starts; otherwise the
resolved ceiling is `min(nFD − core − addnode, clamp)` where `clamp` is the
user request clamped to the system ceiling minus binds, core and add-node
reserve and floored at 0 — hence it never exceeds `max(0, fd bound)`, never
exceeds `nFD − core − addnode`, and is nonnegative whenever the raised
descriptor count covers the core plus the add-node reserve (but can be
negative when it does not, as the counterexample shows). -/
theorem C9_fd_clamp_amended (maxAddnodeConnections nUserMaxConnections : Int)
    (nBindCount : Nat) (nSystemMaxConnections raisedFD : Int) :
    (raisedFD < MIN_CORE_FILEDESCRIPTORS →
      resolveConnectionLimits maxAddnodeConnections nUserMaxConnections nBindCount
        nSystemMaxConnections raisedFD = FdResolveResult.resourceExhausted) ∧
    (MIN_CORE_FILEDESCRIPTORS ≤ raisedFD →
      resolveConnectionLimits maxAddnodeConnections nUserMaxConnections nBindCount
          nSystemMaxConnections raisedFD =
        FdResolveResult.resolved
          (min (raisedFD - MIN_CORE_FILEDESCRIPTORS - maxAddnodeConnections)
            (max (min (max nUserMaxConnections 0)
              (nSystemMaxConnections - max (nBindCount : Int) 1 -
                MIN_CORE_FILEDESCRIPTORS - maxAddnodeConnections)) 0)) raisedFD ∧
      min (raisedFD - MIN_CORE_FILEDESCRIPTORS - maxAddnodeConnections)
          (max (min (max nUserMaxConnections 0)
            (nSystemMaxConnections - max (nBindCount : Int) 1 -
              MIN_CORE_FILEDESCRIPTORS - maxAddnodeConnections)) 0) ≤
        max (nSystemMaxConnections - max (nBindCount : Int) 1 -
          MIN_CORE_FILEDESCRIPTORS - maxAddnodeConnections) 0 ∧
      min (raisedFD - MIN_CORE_FILEDESCRIPTORS - maxAddnodeConnections)
          (max (min (max nUserMaxConnections 0)
            (nSystemMaxConnections - max (nBindCount : Int) 1 -
              MIN_CORE_FILEDESCRIPTORS - maxAddnodeConnections)) 0) ≤
        raisedFD - MIN_CORE_FILEDESCRIPTORS - maxAddnodeConnections ∧
      (MIN_CORE_FILEDESCRIPTORS + maxAddnodeConnections ≤ raisedFD →
        0 ≤ min (raisedFD - MIN_CORE_FILEDESCRIPTORS - maxAddnodeConnections)
          (max (min (max nUserMaxConnections 0)
            (nSystemMaxConnections - max (nBindCount : Int) 1 -
              MIN_CORE_FILEDESCRIPTORS - maxAddnodeConnections)) 0))) := by
  constructor
  · intro h
    simp only [resolveConnectionLimits, if_pos h]
  · intro h
    refine ⟨?_, ?_, ?_, fun h2 => ?_⟩
    · simp only [resolveConnectionLimits, if_neg (not_lt.mpr h)]
    · simp only [MIN_CORE_FILEDESCRIPTORS] at h ⊢
      omega
    · simp only [MIN_CORE_FILEDESCRIPTORS] at h ⊢
      omega
    · simp only [MIN_CORE_FILEDESCRIPTORS] at h h2 ⊢
      omega

/-- Witness for C9 as amended: a 100-descriptor raise fails with
resource exhaustion, and a 1024-descriptor raise yields a nonnegative
ceiling. -/
theorem C9_fd_clamp_amended_witness :
    resolveConnectionLimits 8 100 1 1024 100 = FdResolveResult.resourceExhausted ∧
    (0 : Int) ≤ min ((1024 : Int) - MIN_CORE_FILEDESCRIPTORS - 8)
      (max (min (max (100 : Int) 0) ((1024 : Int) - max ((1 : Nat) : Int) 1 -
        MIN_CORE_FILEDESCRIPTORS - 8)) 0) :=
  ⟨(C9_fd_clamp_amended 8 100 1 1024 100).1 (by decide),
   ((C9_fd_clamp_amended 8 100 1 1024 1024).2 (by decide)).2.2.2 (by decide)⟩
